import Mathlib

/-!
Verification of the certificate / signature-validation core declared in
`omaha/base/signaturevalidator.h`.

The repository ships only the header: the bodies of most functions
(`CertInfo::IsValidNow`, `CertList::FindFirstCert`,
`VerifyAuthenticodeSignature`, `VerifyCertificate`,
`ExtractAllCertificatesFromSignature`, `VerifyFileSignedWithinDays`,
`CertInfo::FileTimeToString`) are in a translation unit that is not part of
the sources.  Those operations are modelled from the specification; the two
inline bodies that ARE in the header (`CertInfo::AsString` and
`SignatureIsValid`) are translated directly from the source.

Modelling conventions:
* `CString` (a wide-character string) is modelled as `List Char`;
* `FILETIME` / `SYSTEMTIME` instants are modelled as `Nat` (a monotone
  absolute time scale, one unit = one second for the freshness policy);
* the opaque `CERT_CONTEXT*` handle is not represented: it carries no
  information used by any verified operation beyond the fields already
  present in the records;
* out-parameters plus `HRESULT`/`bool` success codes become ordinary
  return values (`Option`, or a dedicated outcome inductive).
-/

/-- `CString` of the source, modelled as a list of characters. -/
abbrev CString := List Char

/-- Translated from the source class `CertInfo` (signaturevalidator.h):
one record per certificate encountered in a signature.  The
`cert_context_` native handle is omitted (opaque, unused by the verified
operations). -/
structure CertInfo where
  issuing_company_name : CString
  issuing_dept_name : CString
  trust_authority_name : CString
  thumbprint : CString
  public_key_hash : CString
  not_valid_before : Nat
  not_valid_after : Nat
deriving DecidableEq, Repr

/-- Modelled from the spec: `CertInfo::IsValidNow` — "true iff
`not_valid_before <= nowTimestamp <= not_valid_after`, inclusive on both
bounds" (the body is not under the sources; the header comment agrees:
"returns true if this certificate is valid at this moment, based on the
validity period specified in the certificate").  The current instant is an
explicit argument `now`. -/
def CertInfo.isValidNow (c : CertInfo) (now : Nat) : Bool :=
  decide (c.not_valid_before ≤ now) && decide (now ≤ c.not_valid_after)

/-- A `CertList` is a vector of certificates in insertion order
(source: `std::vector<CertInfo*> cert_list_`). -/
abbrev CertList := List CertInfo

/-- The conjunction of checks of `CertList::FindFirstCert` on one record,
modelled from the spec §4.3: company name is a member of the accepted set,
department equals the given organizational unit exactly, trust authority
equals the given one exactly unless the given one is empty (wildcard), and,
when `check_cert_is_valid_now` is set, the certificate is valid at `now`. -/
def certMatches (companyNamesToMatch : List CString) (orgnUnitToMatch : CString)
    (trustAuthorityToMatch : CString) (checkCertIsValidNow : Bool) (now : Nat)
    (c : CertInfo) : Bool :=
  companyNamesToMatch.contains c.issuing_company_name
  && (c.issuing_dept_name == orgnUnitToMatch)
  && (trustAuthorityToMatch == [] || c.trust_authority_name == trustAuthorityToMatch)
  && (!checkCertIsValidNow || c.isValidNow now)

/-- Modelled from the spec: `CertList::FindFirstCert` — "linear scan in
insertion order; returns the first (lowest insertion index) record
satisfying all checks, or none" (the body is not under the sources).  The
`const CertInfo**` out-parameter becomes an `Option` result. -/
def findFirstCert (certs : CertList) (companyNamesToMatch : List CString)
    (orgnUnitToMatch : CString) (trustAuthorityToMatch : CString)
    (checkCertIsValidNow : Bool) (now : Nat) : Option CertInfo :=
  certs.find? (certMatches companyNamesToMatch orgnUnitToMatch
    trustAuthorityToMatch checkCertIsValidNow now)

/-- Helper: `List.find?` returns the element of lowest index satisfying the
predicate: there is a position `i` holding the result such that the
predicate fails at every earlier position. -/
theorem find?_lowest_index {α : Type} (p : α → Bool) :
    ∀ (l : List α) (c : α), l.find? p = some c →
    ∃ i : Fin l.length, l.get i = c ∧ p c = true ∧
      ∀ j : Fin l.length, (j : Nat) < (i : Nat) → p (l.get j) = false := by
  intro l
  induction l with
  | nil => intro c h; simp [List.find?] at h
  | cons a l ih =>
    intro c h
    by_cases hp : p a = true
    · rw [List.find?_cons_of_pos _ hp] at h
      refine ⟨⟨0, by simp⟩, ?_, ?_, ?_⟩
      · simpa using Option.some.inj h
      · rw [← Option.some.inj h]; exact hp
      · intro j hj; exact absurd hj (by simp)
    · rw [List.find?_cons_of_neg _ hp] at h
      obtain ⟨i, hget, hpc, hearlier⟩ := ih c h
      refine ⟨⟨i + 1, by simp [Nat.succ_lt_succ i.isLt]⟩, by simpa using hget, hpc, ?_⟩
      intro j hj
      match j with
      | ⟨0, _⟩ => simpa using Bool.of_not_eq_true hp
      | ⟨k + 1, hk⟩ =>
        have hk' : k < l.length := Nat.lt_of_succ_lt_succ hk
        have : k < (i : Nat) := Nat.lt_of_succ_lt_succ hj
        simpa using hearlier ⟨k, hk'⟩ this

/-- C4. `isValidNow` evaluated at `T` is true iff
`not_valid_before ≤ T ≤ not_valid_after`, both boundary instants included.
(Purity / absence of I/O is inherent: the model is a total function of the
record and the timestamp.) -/
theorem isValidNow_iff_within_window (R : CertInfo) (T : Nat) :
    R.isValidNow T = true ↔ (R.not_valid_before ≤ T ∧ T ≤ R.not_valid_after) := by
  simp [CertInfo.isValidNow]

/-- C3. `findFirstCert` returns the record of lowest insertion index among
all records satisfying the conjunction of checks (company-name membership,
exact department match, exact trust-authority match unless that criterion is
empty, and current validity when required), and returns none exactly when no
record satisfies all checks. -/
theorem findFirstCert_earliest_match (certs : CertList)
    (companies : List CString) (orgnUnit : CString) (trustAuthority : CString)
    (checkValid : Bool) (now : Nat) :
    (∀ c, findFirstCert certs companies orgnUnit trustAuthority checkValid now = some c →
      ∃ i : Fin certs.length, certs.get i = c ∧
        certMatches companies orgnUnit trustAuthority checkValid now c = true ∧
        ∀ j : Fin certs.length, (j : Nat) < (i : Nat) →
          certMatches companies orgnUnit trustAuthority checkValid now (certs.get j) = false) ∧
    (findFirstCert certs companies orgnUnit trustAuthority checkValid now = none ↔
      ∀ c ∈ certs, certMatches companies orgnUnit trustAuthority checkValid now c = false) := by
  constructor
  · intro c h
    exact find?_lowest_index _ certs c h
  · unfold findFirstCert
    rw [List.find?_eq_none]
    constructor
    · intro h c hc
      exact Bool.of_not_eq_true (h c hc)
    · intro h c hc
      simp [h c hc]

/-- Witness for C3 at a concrete collection: two qualifying records in a
known order; the first one is returned, at index 0, and a collection with no
qualifying record returns none. -/
theorem findFirstCert_earliest_match_witness :
    ∃ i : Fin ([⟨['g'], ['u'], ['v'], ['t','1'], ['k','1'], 0, 10⟩,
                ⟨['g'], ['u'], ['v'], ['t','2'], ['k','2'], 0, 10⟩] : CertList).length,
      ([⟨['g'], ['u'], ['v'], ['t','1'], ['k','1'], 0, 10⟩,
        ⟨['g'], ['u'], ['v'], ['t','2'], ['k','2'], 0, 10⟩] : CertList).get i
        = ⟨['g'], ['u'], ['v'], ['t','1'], ['k','1'], 0, 10⟩ ∧
      certMatches [['g']] ['u'] [] true 5 ⟨['g'], ['u'], ['v'], ['t','1'], ['k','1'], 0, 10⟩ = true ∧
      ∀ j : Fin ([⟨['g'], ['u'], ['v'], ['t','1'], ['k','1'], 0, 10⟩,
                  ⟨['g'], ['u'], ['v'], ['t','2'], ['k','2'], 0, 10⟩] : CertList).length,
        (j : Nat) < (i : Nat) →
        certMatches [['g']] ['u'] [] true 5
          (([⟨['g'], ['u'], ['v'], ['t','1'], ['k','1'], 0, 10⟩,
             ⟨['g'], ['u'], ['v'], ['t','2'], ['k','2'], 0, 10⟩] : CertList).get j) = false :=
  (findFirstCert_earliest_match
      [⟨['g'], ['u'], ['v'], ['t','1'], ['k','1'], 0, 10⟩,
       ⟨['g'], ['u'], ['v'], ['t','2'], ['k','2'], 0, 10⟩]
      [['g']] ['u'] [] true 5).1
    ⟨['g'], ['u'], ['v'], ['t','1'], ['k','1'], 0, 10⟩ (by decide)

/-! ## Trust verifier (`VerifyAuthenticodeSignature`, `SignatureIsValid`) -/

/-- One certificate of the trust chain as seen by the trust verifier,
modelled from the spec §4.4: its subject (signer identity, which the trust
verifier must never evaluate), its validity window, and the instant at which
it was revoked, if any. -/
structure ChainCert where
  subject : CString
  not_valid_before : Nat
  not_valid_after : Nat
  revokedAt : Option Nat
deriving DecidableEq, Repr

/-- The embedded signature of a file as seen by the trust verifier,
modelled from the spec §4.4: cryptographic integrity of the signature over
the file contents, whether the chain resolves to a trusted root, the
embedded (countersignature) signing timestamp, and the chain itself. -/
structure SignatureInfo where
  intact : Bool
  chainsToTrustedRoot : Bool
  signingTime : Nat
  chain : List ChainCert
deriving DecidableEq, Repr

/-- A file presented to the trust verifier: whether it can be read at all,
and its embedded signature when one is present. -/
structure SignedFileModel where
  readable : Bool
  signature : Option SignatureInfo
deriving DecidableEq, Repr

/-- The mutually exclusive terminal outcomes of the trust verifier
(spec §4.4). -/
inductive TrustOutcome where
  | trusted
  | noSignature
  | untrustedChain
  | tamperedOrBroken
  | revokedBeforeSigning
  | ioError
deriving DecidableEq, Repr

/-- A chain certificate was valid at instant `t` (validity window, both
bounds included). -/
def ChainCert.validAt (c : ChainCert) (t : Nat) : Bool :=
  decide (c.not_valid_before ≤ t) && decide (t ≤ c.not_valid_after)

/-- A chain certificate had been revoked at or before instant `t`. -/
def ChainCert.revokedBy (c : ChainCert) (t : Nat) : Bool :=
  match c.revokedAt with
  | none => false
  | some r => decide (r ≤ t)

/-- Modelled from the spec: `VerifyAuthenticodeSignature` (its body is not
under the sources; the header comment agrees with §4.4).  Verifies
(a) cryptographic integrity, (b) resolution of the chain to a trusted root,
(c) validity of every chain certificate at the embedded signing time — never
at the current clock; when `allow_network_check` is set it additionally
rejects certificates revoked at or before the signing time.  Revocation
after signing, expiry since signing, and signer identity never change the
verdict. -/
def verifyTrust (f : SignedFileModel) (allowNetworkCheck : Bool) : TrustOutcome :=
  if !f.readable then .ioError
  else
    match f.signature with
    | none => .noSignature
    | some s =>
      if !s.intact then .tamperedOrBroken
      else if !s.chainsToTrustedRoot then .untrustedChain
      else if !(s.chain.all fun c => c.validAt s.signingTime) then .untrustedChain
      else if allowNetworkCheck && (s.chain.any fun c => c.revokedBy s.signingTime) then
        .revokedBeforeSigning
      else .trusted

/-- Erase the revocation state of a chain certificate (every other field is
kept). -/
def ChainCert.stripRevocation (c : ChainCert) : ChainCert :=
  { c with revokedAt := none }

/-- Erase the revocation state of every certificate of a file: two files
with equal `stripRevocation` images differ at most in revocation state. -/
def SignedFileModel.stripRevocation (f : SignedFileModel) : SignedFileModel :=
  { f with signature := f.signature.map fun s =>
      { s with chain := s.chain.map ChainCert.stripRevocation } }

/-- Erase the subject (signer identity) of every certificate of a file: two
files with equal `stripSubjects` images differ at most in signer identity. -/
def SignedFileModel.stripSubjects (f : SignedFileModel) : SignedFileModel :=
  { f with signature := f.signature.map fun s =>
      { s with chain := s.chain.map fun c => { c with subject := [] } } }

theorem validAt_stripRevocation (c : ChainCert) (t : Nat) :
    c.stripRevocation.validAt t = c.validAt t := rfl

/-- The offline verdict is computed from the revocation-erased file. -/
theorem verifyTrust_offline_eq_stripRevocation (f : SignedFileModel) :
    verifyTrust f false = verifyTrust f.stripRevocation false := by
  unfold verifyTrust SignedFileModel.stripRevocation
  cases f with
  | mk readable signature =>
    cases signature with
    | none => rfl
    | some s =>
      simp [List.all_map, Function.comp, validAt_stripRevocation]

/-- The verdict is computed from the subject-erased file. -/
theorem verifyTrust_eq_stripSubjects (f : SignedFileModel) (a : Bool) :
    verifyTrust f a = verifyTrust f.stripSubjects a := by
  unfold verifyTrust SignedFileModel.stripSubjects
  cases f with
  | mk readable signature =>
    cases signature with
    | none => rfl
    | some s =>
      simp only [Option.map_some]
      have hall : (s.chain.map fun c => { c with subject := ([] : CString) }).all
          (fun c => c.validAt s.signingTime) = s.chain.all (fun c => c.validAt s.signingTime) := by
        rw [List.all_map]
        congr 1
      have hany : (s.chain.map fun c => { c with subject := ([] : CString) }).any
          (fun c => c.revokedBy s.signingTime) = s.chain.any (fun c => c.revokedBy s.signingTime) := by
        rw [List.any_map]
        congr 1
      simp [hall, hany]

/-- A concrete chain certificate revoked at instant 50, after the signing
time 10 used below. -/
def revokedLeafCert : ChainCert := ⟨['s'], 0, 100, some 50⟩

/-- The same certificate with no revocation. -/
def cleanLeafCert : ChainCert := ⟨['s'], 0, 100, none⟩

/-- A readable file with an intact, trusted-chain signature made at instant
10 whose leaf certificate was revoked at instant 50. -/
def revokedLeafFile : SignedFileModel := ⟨true, some ⟨true, true, 10, [revokedLeafCert]⟩⟩

/-- The same file with the revocation erased. -/
def cleanLeafFile : SignedFileModel := ⟨true, some ⟨true, true, 10, [cleanLeafCert]⟩⟩

/-- C1. With `allow_network_check = false` revocation is never consulted:
the verdict is identical for any two files that differ only in the
revocation state of their chain certificates, and an otherwise-valid chain
whose leaf certificate was revoked strictly after the signing timestamp
still yields `trusted`. -/
theorem verifyTrust_offline_ignores_revocation :
    (∀ f f' : SignedFileModel, f.stripRevocation = f'.stripRevocation →
      verifyTrust f false = verifyTrust f' false) ∧
    (∀ (f : SignedFileModel) (s : SignatureInfo) (leaf : ChainCert) (r : Nat),
      f.readable = true → f.signature = some s → s.intact = true →
      s.chainsToTrustedRoot = true →
      (∀ c ∈ s.chain, c.validAt s.signingTime = true) →
      s.chain.head? = some leaf → leaf.revokedAt = some r → s.signingTime < r →
      verifyTrust f false = .trusted) := by
  constructor
  · intro f f' h
    rw [verifyTrust_offline_eq_stripRevocation f,
      verifyTrust_offline_eq_stripRevocation f', h]
  · intro f s leaf r hread hsig hint hchain hvalid _ _ _
    have hall : (s.chain.all fun c => c.validAt s.signingTime) = true :=
      List.all_eq_true.2 hvalid
    simp [verifyTrust, hread, hsig, hint, hchain, hall]

/-- Witness for C1: the concrete revoked-after-signing file and its
revocation-erased twin get the same offline verdict, and that verdict is
`trusted`. -/
theorem verifyTrust_offline_ignores_revocation_witness :
    verifyTrust revokedLeafFile false = verifyTrust cleanLeafFile false ∧
    verifyTrust revokedLeafFile false = .trusted :=
  ⟨verifyTrust_offline_ignores_revocation.1 revokedLeafFile cleanLeafFile (by decide),
   verifyTrust_offline_ignores_revocation.2 revokedLeafFile ⟨true, true, 10, [revokedLeafCert]⟩
     revokedLeafCert 50 rfl rfl rfl rfl (by decide) rfl rfl (by decide)⟩

/-- A chain certificate whose validity window ended at instant 20 (expired
relative to any later clock). -/
def expiredCert : ChainCert := ⟨['x'], 0, 20, none⟩

/-- A readable file signed at instant 10, within `expiredCert`'s window. -/
def expiredCertFile : SignedFileModel := ⟨true, some ⟨true, true, 10, [expiredCert]⟩⟩

/-- The same file with a different signer subject. -/
def expiredCertFileAltSubject : SignedFileModel := ⟨true, some ⟨true, true, 10, [⟨['y'], 0, 20, none⟩]⟩⟩

/-- C5. `verifyTrust` anchors chain validity to the embedded signing
timestamp and never evaluates present-day validity or signer identity: the
verdict is identical for any two files that differ only in certificate
subjects, and a chain valid at signing time (and unrevoked by it) yields
`trusted` even when every certificate's window has expired before an
arbitrary present instant `now`. -/
theorem verifyTrust_anchored_to_signing_time :
    (∀ (f f' : SignedFileModel) (a : Bool), f.stripSubjects = f'.stripSubjects →
      verifyTrust f a = verifyTrust f' a) ∧
    (∀ (f : SignedFileModel) (s : SignatureInfo) (a : Bool) (now : Nat),
      f.readable = true → f.signature = some s → s.intact = true →
      s.chainsToTrustedRoot = true →
      (∀ c ∈ s.chain, c.validAt s.signingTime = true) →
      (∀ c ∈ s.chain, c.revokedBy s.signingTime = false) →
      (∀ c ∈ s.chain, c.not_valid_after < now) →
      verifyTrust f a = .trusted) := by
  constructor
  · intro f f' a h
    rw [verifyTrust_eq_stripSubjects f, verifyTrust_eq_stripSubjects f', h]
  · intro f s a now hread hsig hint hchain hvalid hnorevoke _
    have hall : (s.chain.all fun c => c.validAt s.signingTime) = true :=
      List.all_eq_true.2 hvalid
    have hany : (s.chain.any fun c => c.revokedBy s.signingTime) = false := by
      rw [List.any_eq_false]
      intro c hc
      simp [hnorevoke c hc]
    simp [verifyTrust, hread, hsig, hint, hchain, hall, hany]

/-- Witness for C5: the file whose only certificate expired at instant 20,
checked against present instant 1000, is `trusted` (with the network check
on), and renaming its signer subject leaves the verdict unchanged. -/
theorem verifyTrust_anchored_to_signing_time_witness :
    verifyTrust expiredCertFile true = verifyTrust expiredCertFileAltSubject true ∧
    verifyTrust expiredCertFile true = .trusted :=
  ⟨verifyTrust_anchored_to_signing_time.1 expiredCertFile expiredCertFileAltSubject true (by decide),
   verifyTrust_anchored_to_signing_time.2 expiredCertFile ⟨true, true, 10, [expiredCert]⟩
     true 1000 rfl rfl rfl rfl (by decide) (by decide) (by decide)⟩

/-- `S_OK` of the Windows SDK. -/
def S_OK : Int := 0

/-- `TRUST_E_NOSIGNATURE`. -/
def TRUST_E_NOSIGNATURE : Int := 0x800B0100

/-- `CERT_E_CHAINING`. -/
def CERT_E_CHAINING : Int := 0x800B010A

/-- `TRUST_E_BAD_DIGEST`. -/
def TRUST_E_BAD_DIGEST : Int := 0x80096010

/-- `CERT_E_REVOKED`. -/
def CERT_E_REVOKED : Int := 0x800B010C

/-- `CRYPT_E_FILE_ERROR`. -/
def CRYPT_E_FILE_ERROR : Int := 0x80092003

/-- Modelled from the spec: the `HRESULT`-valued entry point
`VerifyAuthenticodeSignature` — `S_OK` exactly on the `trusted` outcome,
a failing (nonzero) `HRESULT` on every other outcome. -/
def VerifyAuthenticodeSignature (signed_file : SignedFileModel)
    (allow_network_check : Bool) : Int :=
  match verifyTrust signed_file allow_network_check with
  | .trusted => S_OK
  | .noSignature => TRUST_E_NOSIGNATURE
  | .untrustedChain => CERT_E_CHAINING
  | .tamperedOrBroken => TRUST_E_BAD_DIGEST
  | .revokedBeforeSigning => CERT_E_REVOKED
  | .ioError => CRYPT_E_FILE_ERROR

/-- Translated from the source (inline body in signaturevalidator.h):
`SignatureIsValid` returns
`VerifyAuthenticodeSignature(signed_file, allow_network_check) == S_OK`. -/
def SignatureIsValid (signed_file : SignedFileModel)
    (allow_network_check : Bool) : Bool :=
  VerifyAuthenticodeSignature signed_file allow_network_check == S_OK

/-- C10. `SignatureIsValid` returns true exactly when
`VerifyAuthenticodeSignature` returns `S_OK`, on every input. -/
theorem SignatureIsValid_iff_S_OK (signed_file : SignedFileModel)
    (allow_network_check : Bool) :
    SignatureIsValid signed_file allow_network_check = true ↔
      VerifyAuthenticodeSignature signed_file allow_network_check = S_OK := by
  simp [SignatureIsValid]

/-! ## Identity matcher (`VerifyCertificate`) -/

/-- The signing (leaf) certificate as seen by the identity matcher,
modelled from the spec §4.5: its primary identity field (first Common
Name), its public-key hash, and its validity window. -/
structure LeafCert where
  firstCN : CString
  public_key_hash : CString
  not_valid_before : Nat
  not_valid_after : Nat
deriving DecidableEq, Repr

/-- Outcomes of the identity matcher (spec §4.5). -/
inductive IdentityOutcome where
  | identityOk
  | subjectMismatch
  | pinMismatch
  | notCurrentlyValid
  | noSignature
deriving DecidableEq, Repr

/-- Modelled from the spec: `VerifyCertificate` (its body is not under the
sources).  Requires the leaf certificate's first Common Name to equal one
member of `subject`; when `expected_hashes` is non-empty, additionally
requires the leaf's public-key hash to equal one of them (a distinct failure
otherwise); when `check_cert_is_valid_now` is set, additionally requires
validity at the current instant.  The empty hash list models the absent
optional `expected_hashes` parameter. -/
def verifyIdentity (leaf : Option LeafCert) (subject : List CString)
    (check_cert_is_valid_now : Bool) (expected_hashes : List CString)
    (now : Nat) : IdentityOutcome :=
  match leaf with
  | none => .noSignature
  | some c =>
    if !(subject.contains c.firstCN) then .subjectMismatch
    else if !(expected_hashes == []) && !(expected_hashes.contains c.public_key_hash) then
      .pinMismatch
    else if check_cert_is_valid_now
        && !(decide (c.not_valid_before ≤ now) && decide (now ≤ c.not_valid_after)) then
      .notCurrentlyValid
    else .identityOk

/-- C2. With an empty (absent) `expected_hashes` list, a subject match alone
yields `identityOk` (current-validity check off); with a non-empty
`expected_hashes` list that does not contain the leaf's public-key hash, the
verdict is the distinct `pinMismatch` failure even though the subject
matched (whatever the current-validity flag). -/
theorem verifyIdentity_pinning (leaf : LeafCert) (subject : List CString) (now : Nat) :
    (leaf.firstCN ∈ subject →
      verifyIdentity (some leaf) subject false [] now = .identityOk) ∧
    (∀ (expected_hashes : List CString) (checkValid : Bool),
      leaf.firstCN ∈ subject → expected_hashes ≠ [] →
      leaf.public_key_hash ∉ expected_hashes →
      verifyIdentity (some leaf) subject checkValid expected_hashes now = .pinMismatch) := by
  constructor
  · intro hmem
    simp [verifyIdentity, hmem]
  · intro expected_hashes checkValid hmem hne hpin
    simp [verifyIdentity, hmem, hne, hpin]

/-- Witness for C2 at a concrete leaf certificate: subject match with no
pin list succeeds; a wrong pin list yields `pinMismatch`. -/
theorem verifyIdentity_pinning_witness :
    verifyIdentity (some ⟨['g'], ['k'], 0, 10⟩) [['g']] false [] 5 = .identityOk ∧
    verifyIdentity (some ⟨['g'], ['k'], 0, 10⟩) [['g']] false [['w']] 5 = .pinMismatch :=
  ⟨(verifyIdentity_pinning ⟨['g'], ['k'], 0, 10⟩ [['g']] 5).1 (by decide),
   (verifyIdentity_pinning ⟨['g'], ['k'], 0, 10⟩ [['g']] 5).2 [['w']] false
     (by decide) (by decide) (by decide)⟩

/-! ## Freshness policy (`VerifyFileSignedWithinDays`) -/

/-- Outcomes of the freshness policy (spec §4.6). -/
inductive FreshnessOutcome where
  | ok
  | stale
  | noTimestamp
deriving DecidableEq, Repr

/-- One day of the time scale, in seconds. -/
def secondsPerDay : Nat := 86400

/-- Modelled from the spec: `VerifyFileSignedWithinDays` (its body is not
under the sources).  `signingTime` is the trusted countersignature timestamp
obtained via `GetSigningTime`, `none` when no trusted timestamp is
extractable; succeeds iff `now - signingTime ≤ days` (whole days, boundary
inclusive), fails with `stale` otherwise, with `noTimestamp` when there is
no timestamp. -/
def verifySignedWithinDays (signingTime : Option Nat) (now : Nat)
    (days : Nat) : FreshnessOutcome :=
  match signingTime with
  | none => .noTimestamp
  | some st => if (now : Int) - (st : Int) ≤ (days : Int) * secondsPerDay then .ok else .stale

/-- C6. The freshness policy succeeds iff the elapsed time from signing to
`now` is at most `days` whole days (boundary included); otherwise it fails
with `stale`; a missing trusted timestamp fails with `noTimestamp`; and with
`days = 0` (signing not later than `now`) it fails with `stale` unless the
signing instant equals `now` exactly. -/
theorem verifySignedWithinDays_boundary (st now days : Nat) :
    (verifySignedWithinDays (some st) now days = .ok ↔
      (now : Int) - (st : Int) ≤ (days : Int) * secondsPerDay) ∧
    (verifySignedWithinDays (some st) now days ≠ .ok →
      verifySignedWithinDays (some st) now days = .stale) ∧
    (verifySignedWithinDays none now days = .noTimestamp) ∧
    (st ≤ now → (verifySignedWithinDays (some st) now 0 = .stale ↔ st ≠ now)) := by
  have hsome : ∀ d, verifySignedWithinDays (some st) now d =
      if (now : Int) - (st : Int) ≤ (d : Int) * secondsPerDay then .ok else .stale := by
    intro d
    rfl
  refine ⟨?_, ?_, rfl, ?_⟩
  · rw [hsome]
    split
    · simp [*]
    · simp only [reduceCtorEq, false_iff]
      omega
  · rw [hsome]
    split
    · simp
    · simp
  · intro hle
    rw [hsome]
    split
    · rename_i h
      simp only [Nat.cast_zero, zero_mul] at h
      constructor
      · intro hok
        exact absurd hok (by simp)
      · intro hne
        omega
    · rename_i h
      simp only [Nat.cast_zero, zero_mul] at h
      constructor
      · intro _
        omega
      · intro _
        rfl

/-- Witness for C6: signing at instant 100, checked at instant 100 with
`days = 0`, succeeds only in the exact-equality case; checked at instant 101
with `days = 0` it is `stale`; and the one-day boundary at exactly 86400
elapsed seconds is accepted. -/
theorem verifySignedWithinDays_boundary_witness :
    (verifySignedWithinDays (some 100) 101 0 = .stale ↔ (100 : Nat) ≠ 101) ∧
    (verifySignedWithinDays (some 100) (100 + 86400) 1 = .ok ↔
      ((100 : Nat) + 86400 : Int) - (100 : Int) ≤ (1 : Int) * secondsPerDay) :=
  ⟨(verifySignedWithinDays_boundary 100 101 0).2.2.2 (by decide),
   (verifySignedWithinDays_boundary 100 (100 + 86400) 1).1⟩

/-! ## Certificate extraction (`ExtractAllCertificatesFromSignature`) -/

/-- One certificate as it appears inside a file's signature structure,
before a `CertInfo` record is built for it: the raw fields the extractor
reads.  `thumbprint` / `public_key_hash` are `none` when digesting that
certificate fails (spec §3: their absence indicates extraction failure for
that record). -/
structure RawCertData where
  subject : CString
  issuing_company_name : CString
  issuing_dept_name : CString
  trust_authority_name : CString
  thumbprint : Option CString
  public_key_hash : Option CString
  not_valid_before : Nat
  not_valid_after : Nat
deriving DecidableEq, Repr

/-- A file presented to the extractor: whether it can be read, and the
certificates of its embedded signature when one is present (`none` models
"no signature"). -/
structure ExtractInput where
  readable : Bool
  signatureCerts : Option (List RawCertData)
deriving DecidableEq, Repr

/-- Build the `CertInfo` record of one raw certificate; fails (record
excluded from the collection) when thumbprint or public-key hash is
absent. -/
def buildCertInfo (r : RawCertData) : Option CertInfo :=
  match r.thumbprint, r.public_key_hash with
  | some tp, some pk =>
    some ⟨r.issuing_company_name, r.issuing_dept_name, r.trust_authority_name,
      tp, pk, r.not_valid_before, r.not_valid_after⟩
  | _, _ => none

/-- The optional `subject_name` filter: retained are the certificates whose
subject the filter matches exactly or as a leading segment (the platform's
certificate-name convention), case-sensitively. -/
def subjectFilterMatches (filter : Option CString) (subj : CString) : Bool :=
  match filter with
  | none => true
  | some f => f == subj || f.isPrefixOf subj

/-- Modelled from the spec: `ExtractAllCertificatesFromSignature` (its body
is not under the sources).  Enumerates the certificates of the embedded
signature, keeps those matching the subject filter, and builds a record for
each; an unreadable file or a file with no signature gives the empty
collection — a total function, never a fault.  The `CertList*` out-parameter
becomes the return value. -/
def extractAllCertificatesFromSignature (signed_file : ExtractInput)
    (subject_name : Option CString) : CertList :=
  if !signed_file.readable then []
  else
    match signed_file.signatureCerts with
    | none => []
    | some raws =>
      (raws.filter fun r => subjectFilterMatches subject_name r.subject).filterMap buildCertInfo

/-- C7. On an unreadable file, and on a file with no embedded signature, the
extractor returns the empty collection (size 0); being a total function into
`CertList`, it raises no error on any input. -/
theorem extractAllCertificates_empty_on_absent (signed_file : ExtractInput)
    (subject_name : Option CString) :
    (signed_file.readable = false →
      (extractAllCertificatesFromSignature signed_file subject_name).length = 0) ∧
    (signed_file.signatureCerts = none →
      (extractAllCertificatesFromSignature signed_file subject_name).length = 0) := by
  constructor
  · intro h
    simp [extractAllCertificatesFromSignature, h]
  · intro h
    simp [extractAllCertificatesFromSignature, h]

/-- Witness for C7: a concrete unreadable file and a concrete readable but
unsigned file both yield collections of size 0. -/
theorem extractAllCertificates_empty_on_absent_witness :
    (extractAllCertificatesFromSignature ⟨false, some [⟨['s'], ['g'], ['u'], ['v'],
        some ['t'], some ['k'], 0, 10⟩]⟩ none).length = 0 ∧
    (extractAllCertificatesFromSignature ⟨true, none⟩ (some ['s'])).length = 0 :=
  ⟨(extractAllCertificates_empty_on_absent ⟨false, some [⟨['s'], ['g'], ['u'], ['v'],
      some ['t'], some ['k'], 0, 10⟩]⟩ none).1 rfl,
   (extractAllCertificates_empty_on_absent ⟨true, none⟩ (some ['s'])).2 rfl⟩

/-! ## Digest extraction (`ExtractThumbprint`, `ExtractPublicKeyHash`) -/

/-- Modelled from the spec: `CertInfo::ExtractThumbprint` — the digest
(SHA-1 capability `sha1`, an injected deterministic primitive, spec §6) over
the certificate's raw encoded bytes. -/
def extractThumbprint (sha1 : List Nat → CString) (rawCertBytes : List Nat) : CString :=
  sha1 rawCertBytes

/-- Modelled from the spec: `CertInfo::ExtractPublicKeyHash` — the digest
(SHA-256 capability `sha256`, an injected deterministic primitive, spec §6)
over the DER-encoded public-key structure of the certificate. -/
def extractPublicKeyHash (sha256 : List Nat → CString) (publicKeyDerBytes : List Nat) : CString :=
  sha256 publicKeyDerBytes

/-- C8. Both digest extractions are deterministic: two calls on
byte-identical certificate data yield identical digest strings, for any
digest capability. -/
theorem extract_digests_deterministic (sha1 sha256 : List Nat → CString)
    (bytes1 bytes2 : List Nat) (h : bytes1 = bytes2) :
    extractThumbprint sha1 bytes1 = extractThumbprint sha1 bytes2 ∧
    extractPublicKeyHash sha256 bytes1 = extractPublicKeyHash sha256 bytes2 := by
  rw [h]
  exact ⟨rfl, rfl⟩

/-- Witness for C8 at concrete byte strings and a concrete digest
capability (list reversal standing in for the injected hash). -/
theorem extract_digests_deterministic_witness :
    extractThumbprint (fun b => (b.map Char.ofNat).reverse) [103, 111]
      = extractThumbprint (fun b => (b.map Char.ofNat).reverse) [103, 111] ∧
    extractPublicKeyHash (fun b => b.map Char.ofNat) [103, 111]
      = extractPublicKeyHash (fun b => b.map Char.ofNat) [103, 111] :=
  extract_digests_deterministic (fun b => (b.map Char.ofNat).reverse)
    (fun b => b.map Char.ofNat) [103, 111] [103, 111] rfl

/-! ## Diagnostics rendering (`CertInfo::AsString`) -/

/-- Translated from the source (inline body in signaturevalidator.h):
`CertInfo::AsString` concatenates the issuing company name, the department,
the trust provider, and the two validity-window timestamps rendered through
`CertInfo::FileTimeToString`, each between labelled quotes.
`fileTimeToString` is a parameter because the body of
`CertInfo::FileTimeToString` is not under the sources; it receives only the
timestamp, as in the source. -/
def CertInfo.asString (c : CertInfo) (fileTimeToString : Nat → CString) : CString :=
  ("Issuing Company: \"".toList) ++ c.issuing_company_name
  ++ ("\"  Dept: \"".toList) ++ c.issuing_dept_name
  ++ ("\"  Trust Provider: \"".toList) ++ c.trust_authority_name
  ++ ("\"  Valid From: \"".toList) ++ fileTimeToString c.not_valid_before
  ++ ("\"  Valid To: \"".toList) ++ fileTimeToString c.not_valid_after
  ++ ("\"".toList)

set_option maxRecDepth 20000 in
/-- Counterexample to C9: for a concrete record whose thumbprint is `"Z"`
and whose public-key hash is `"Q"` (characters occurring nowhere else in the
output), neither digest occurs in the rendering: `asString` does NOT include
all of the record's fields. -/
theorem asString_counterexample :
    ¬((⟨['g'], ['g'], ['g'], ['Z'], ['Q'], 0, 1⟩ : CertInfo).thumbprint <:+:
        CertInfo.asString ⟨['g'], ['g'], ['g'], ['Z'], ['Q'], 0, 1⟩ (fun _ => ['t'])) ∧
    ¬((⟨['g'], ['g'], ['g'], ['Z'], ['Q'], 0, 1⟩ : CertInfo).public_key_hash <:+:
        CertInfo.asString ⟨['g'], ['g'], ['g'], ['Z'], ['Q'], 0, 1⟩ (fun _ => ['t'])) := by
  constructor
  · decide
  · decide

/-- C9 (amended). `asString` includes the issuing company name, the
department, the trust authority and the renderings of both validity-window
timestamps — but not the thumbprint or the public-key hash — as segments of
its output, for every record and every timestamp rendering. -/
theorem asString_contains_rendered_fields (r : CertInfo) (ftts : Nat → CString) :
    (r.issuing_company_name <:+: r.asString ftts) ∧
    (r.issuing_dept_name <:+: r.asString ftts) ∧
    (r.trust_authority_name <:+: r.asString ftts) ∧
    (ftts r.not_valid_before <:+: r.asString ftts) ∧
    (ftts r.not_valid_after <:+: r.asString ftts) := by
  refine ⟨⟨"Issuing Company: \"".toList,
      "\"  Dept: \"".toList ++ r.issuing_dept_name
        ++ "\"  Trust Provider: \"".toList ++ r.trust_authority_name
        ++ "\"  Valid From: \"".toList ++ ftts r.not_valid_before
        ++ "\"  Valid To: \"".toList ++ ftts r.not_valid_after ++ "\"".toList, ?_⟩,
    ⟨"Issuing Company: \"".toList ++ r.issuing_company_name ++ "\"  Dept: \"".toList,
      "\"  Trust Provider: \"".toList ++ r.trust_authority_name
        ++ "\"  Valid From: \"".toList ++ ftts r.not_valid_before
        ++ "\"  Valid To: \"".toList ++ ftts r.not_valid_after ++ "\"".toList, ?_⟩,
    ⟨"Issuing Company: \"".toList ++ r.issuing_company_name ++ "\"  Dept: \"".toList
        ++ r.issuing_dept_name ++ "\"  Trust Provider: \"".toList,
      "\"  Valid From: \"".toList ++ ftts r.not_valid_before
        ++ "\"  Valid To: \"".toList ++ ftts r.not_valid_after ++ "\"".toList, ?_⟩,
    ⟨"Issuing Company: \"".toList ++ r.issuing_company_name ++ "\"  Dept: \"".toList
        ++ r.issuing_dept_name ++ "\"  Trust Provider: \"".toList ++ r.trust_authority_name
        ++ "\"  Valid From: \"".toList,
      "\"  Valid To: \"".toList ++ ftts r.not_valid_after ++ "\"".toList, ?_⟩,
    ⟨"Issuing Company: \"".toList ++ r.issuing_company_name ++ "\"  Dept: \"".toList
        ++ r.issuing_dept_name ++ "\"  Trust Provider: \"".toList ++ r.trust_authority_name
        ++ "\"  Valid From: \"".toList ++ ftts r.not_valid_before ++ "\"  Valid To: \"".toList,
      "\"".toList, ?_⟩⟩
  all_goals simp [CertInfo.asString, List.append_assoc]
